import Mathlib

/-!
Verification of the django-quickbooks client (src/quickbooks/api.py and
src/quickbooks/models.py) against its natural-language specification.

The Python modules are shallowly embedded: the HTTP session is a function
argument mapping a URL (and body, for POSTs) to the response it would return,
JSON bodies are an inductive value type, and exceptions are the error side of
`Except`. Line numbers in doc comments refer to the source files.
-/

set_option autoImplicit false

namespace Quickbooks

/-- JSON values, as produced by `response.json()`. -/
inductive Json where
  | null
  | bool (b : Bool)
  | num (n : Int)
  | str (s : String)
  | arr (xs : List Json)
  | obj (kvs : List (String × Json))

/-- Python dict subscript/`.get` lookup on association-list objects (first
binding wins; parsed JSON objects have unique keys, so this matches dict
semantics). -/
def dictGet {α : Type} : List (String × α) → String → Option α
  | [], _ => none
  | kv :: rest, k => if kv.1 = k then some kv.2 else dictGet rest k

/-- Python-level exceptions that escape `error_check` uncaught when a response
body has an unexpected shape. -/
inductive PyError where
  | keyError (key : String)
  | typeError
  | attributeError
deriving DecidableEq

/-- The two local exception subtypes appearing in the `ERRORS` table
(api.py lines 47-50). -/
inductive MappedError where
  | featureNotSupportedError
  | duplicateNameError
deriving DecidableEq

/-- Exceptions `error_check` (api.py lines 166-180) can raise, together with
the Python-level errors its own evaluation can raise on ill-shaped bodies.
`apiError` and `mapped` carry the full parsed response body, mirroring
`ApiError(resp_json)` and `ERRORS[error['code']](resp_json)`. -/
inductive QbRaise where
  | pyError (e : PyError)
  | authenticationFailure
  | apiError (body : Json)
  | mapped (k : MappedError) (body : Json)

/-- ERRORS (api.py lines 47-50): remote error code to local exception type. -/
def ERRORS : List (String × MappedError) :=
  [("5030", MappedError.featureNotSupportedError),
   ("6240", MappedError.duplicateNameError)]

/-- An HTTP response as `error_check` consumes it: its status code and its
parsed JSON body. `response.json()` is modeled as total, returning
`json_body`; unparseable bodies are out of scope of the claims. -/
structure HttpResponse where
  status_code : Nat
  json_body : Json

/-- Python `'Fault' in resp_json` (api.py line 171): key membership for a
dict, element membership for a list, substring test for a string; any other
value is not iterable and the test raises TypeError. -/
def containsFault : Json → Except PyError Bool
  | Json.obj kvs => Except.ok (kvs.any (fun kv => kv.1 == "Fault"))
  | Json.arr xs =>
      Except.ok (xs.any (fun x => match x with
        | Json.str s => s == "Fault"
        | _ => false))
  | Json.str s => Except.ok (decide (1 < (s.splitOn "Fault").length))
  | _ => Except.error PyError.typeError

/-- Python `resp_json['Fault']` (api.py line 172), evaluated only after the
membership test succeeded: dict lookup, while subscripting a list or string
with a string key raises TypeError. -/
def subscriptFault : Json → Except PyError Json
  | Json.obj kvs =>
      match dictGet kvs "Fault" with
      | some v => Except.ok v
      | none => Except.error (PyError.keyError "Fault")
  | _ => Except.error PyError.typeError

/-- One iteration of the `for error in errors` loop (api.py lines 173-175):
`some e` means the iteration raised `e`, `none` means it fell through to the
next entry. `error['code']` on a dict without the key raises KeyError; on a
non-dict entry it raises TypeError; `ERRORS.get` with an unhashable key
(list/dict) raises TypeError, while any other unmatched key just misses. -/
def scanStep (resp_json : Json) (e : Json) : Option QbRaise :=
  match e with
  | Json.obj ekvs =>
    match dictGet ekvs "code" with
    | none => some (QbRaise.pyError (PyError.keyError "code"))
    | some (Json.str c) =>
      match dictGet ERRORS c with
      | some k => some (QbRaise.mapped k resp_json)
      | none => none
    | some (Json.arr _) => some (QbRaise.pyError PyError.typeError)
    | some (Json.obj _) => some (QbRaise.pyError PyError.typeError)
    | some _ => none
  | _ => some (QbRaise.pyError PyError.typeError)

/-- The `for error in errors` loop followed by the unconditional
`raise ApiError(resp_json)` (api.py lines 173-176): inside the `Fault` block
something is always raised. -/
def scanErrors (resp_json : Json) : List Json → QbRaise
  | [] => QbRaise.apiError resp_json
  | e :: rest =>
    match scanStep resp_json e with
    | some r => r
    | none => scanErrors resp_json rest

/-- Iteration of the value bound to `errors` (api.py line 172): a list is
scanned entry by entry; Python iterates a string by character and a dict by
key, so a non-empty string or dict fails on `error['code']` with TypeError
while an empty one falls through to `raise ApiError`; numbers, booleans and
None are not iterable. -/
def scanErrorsValue (resp_json : Json) : Json → QbRaise
  | Json.arr xs => scanErrors resp_json xs
  | Json.str s =>
      if s.isEmpty then QbRaise.apiError resp_json else QbRaise.pyError PyError.typeError
  | Json.obj kvs =>
      if kvs.isEmpty then QbRaise.apiError resp_json else QbRaise.pyError PyError.typeError
  | _ => QbRaise.pyError PyError.typeError

/-- The body of the `if 'Fault' in resp_json:` block (api.py lines 172-176):
`resp_json['Fault'].get('Error', [])` requires the Fault value to be a dict
(anything else lacks `.get` and raises AttributeError), defaulting a missing
`Error` key to the empty list. -/
def faultBlock (resp_json fault : Json) : QbRaise :=
  match fault with
  | Json.obj fkvs => scanErrorsValue resp_json ((dictGet fkvs "Error").getD (Json.arr []))
  | _ => QbRaise.pyError PyError.attributeError

/-- error_check (api.py lines 166-180). A raised exception is modeled as
`Except.error`; the normal `return response.json()` as `Except.ok`. When the
status is 400 and `Fault` is absent, control falls through to the
`status_code == 401` test, which is false there, and the parsed body is
returned. -/
def error_check (response : HttpResponse) : Except QbRaise Json :=
  if response.status_code = 400 then
    let resp_json := response.json_body
    match containsFault resp_json with
    | Except.error e => Except.error (QbRaise.pyError e)
    | Except.ok true =>
      match subscriptFault resp_json with
      | Except.error e => Except.error (QbRaise.pyError e)
      | Except.ok fault => Except.error (faultBlock resp_json fault)
    | Except.ok false => Except.ok resp_json
  else if response.status_code = 401 then
    Except.error QbRaise.authenticationFailure
  else
    Except.ok response.json_body

/-- Module-level URL constants (api.py lines 8-12). -/
def APPCENTER_URL_BASE : String := "https://appcenter.intuit.com/api/v1/"

def QUICKBOOKS_DESKTOP_V3_URL_BASE : String := "https://quickbooks.api.intuit.com/v3"

def QUICKBOOKS_ONLINE_V3_URL_BASE : String := "https://quickbooks.api.intuit.com/v3"

def QUICKBOOKS_ONLINE_V3_SANDBOX_URL_BASE : String := "https://sandbox-quickbooks.api.intuit.com/v3"

/-- QuickbooksToken (models.py lines 9-14). The encrypted-at-rest storage of
the key material is out of scope; fields are plain strings, and the foreign
key to the user is its numeric id. -/
structure QuickbooksToken where
  user_id : Nat
  access_token : String
  access_token_secret : String
  realm_id : String
  data_source : String
deriving DecidableEq

/-- The url_base dictionary lookup of `QuickbooksApi.__init__`
(api.py lines 72-75): `none` models the KeyError raised when `data_source`
is neither 'QBD' nor 'QBO'. -/
def url_base_of (data_source : String) (sandbox : Bool) : Option String :=
  let online_url_base :=
    if sandbox then QUICKBOOKS_ONLINE_V3_SANDBOX_URL_BASE else QUICKBOOKS_ONLINE_V3_URL_BASE
  if data_source = "QBD" then some QUICKBOOKS_DESKTOP_V3_URL_BASE
  else if data_source = "QBO" then some online_url_base
  else none

/-- The request-relevant session state established by `QuickbooksApi.__init__`
(api.py lines 55-89): the realm id and the resolved url_base. The OAuth
session object and the best-effort subscription-level probe (which only sets
`self.level` and swallows every failure) affect no request URL and are not
modeled. -/
structure QuickbooksApi where
  realm_id : String
  url_base : String
deriving DecidableEq

/-- Construction of a `QuickbooksApi` from a token (api.py lines 55-75);
`none` models the KeyError on an unrecognized data_source. -/
def mkApi (token : QuickbooksToken) (sandbox : Bool) : Option QuickbooksApi :=
  (url_base_of token.data_source sandbox).map
    (fun b => { realm_id := token.realm_id, url_base := b })

/-- Python `str.lower`, modeled character by character; it agrees with the
builtin on the ASCII strings these URLs are made of. -/
def pyLower (s : String) : String := String.mk (s.toList.map Char.toLower)

/-- The URL constructed and lower-cased by `QuickbooksApi.read`
(api.py lines 127-128). -/
def read_url (api : QuickbooksApi) (object_type entity_id : String) : String :=
  pyLower (api.url_base ++ "/company/" ++ api.realm_id ++ "/" ++ object_type ++ "/" ++ entity_id)

/-- QuickbooksApi.read (api.py lines 112-129): GET the constructed URL — the
`get` argument stands for `self.session.get`, mapping a URL to the response
the network would return — and pass the raw response to `error_check`. -/
def read (api : QuickbooksApi) (get : String → HttpResponse)
    (object_type entity_id : String) : Except QbRaise Json :=
  error_check (get (read_url api object_type entity_id))

/-- Uppercase hexadecimal digit, as used by Python 2's percent-encoding. -/
def hexDigit (n : Nat) : Char :=
  if n < 10 then Char.ofNat (48 + n) else Char.ofNat (55 + n)

/-- Encoding of one character under Python 2 `urllib.quote` with the default
safe set: letters, digits, '_', '.', '-' and '/' pass through, every other
character becomes an uppercase %XX byte escape (modeled for code points
below 256, which covers the ASCII query strings in scope). -/
def quote_char (c : Char) : String :=
  if c.isAlphanum || c = '_' || c = '.' || c = '-' || c = '/' then String.singleton c
  else String.mk ['%', hexDigit (c.toNat % 256 / 16), hexDigit (c.toNat % 16)]

/-- Python 2 `urllib.quote` with its default safe characters (api.py line 139
calls it with one argument). -/
def quote (s : String) : String :=
  String.join (s.toList.map quote_char)

/-- The URL constructed by `QuickbooksApi.query` (api.py line 139): the query
string is percent-encoded by `urllib.quote` and `.lower()` is deliberately
not applied (api.py line 140). -/
def query_url (api : QuickbooksApi) (q : String) : String :=
  api.url_base ++ "/company/" ++ api.realm_id ++ "/query?query=" ++ quote q

/-- QuickbooksApi.query (api.py lines 131-142): GET the constructed URL as is
and pass the raw response to `error_check`. -/
def query (api : QuickbooksApi) (get : String → HttpResponse) (q : String) :
    Except QbRaise Json :=
  error_check (get (query_url api q))

/-- Marker for the Python NameError raised at api.py line 164:
`error_check(request)` reads the name `request`, which is bound nowhere in
`update`, its class, or the module. -/
inductive NameError where
  | request_not_defined
deriving DecidableEq

/-- The URL constructed and lower-cased by `QuickbooksApi.update`
(api.py lines 162-163; the `.lower()` applied at the call site is folded in). -/
def update_url (api : QuickbooksApi) (object_type : String) : String :=
  pyLower (api.url_base ++ "/company/" ++ api.realm_id ++ "/" ++ object_type ++ "?operation=update")

/-- QuickbooksApi.update (api.py lines 159-164): POSTs `object_body` to the
constructed URL (the `post` argument stands for `self.session.post`), binds
the response, then evaluates `return error_check(request)` — `request` is an
undefined name, so Python raises NameError before `error_check` runs and the
bound response is never used. The pair records the URL the POST was issued
to and the outcome. -/
def update (api : QuickbooksApi) (post : String → String → HttpResponse)
    (object_type object_body : String) :
    String × Except NameError (Except QbRaise Json) :=
  let constructed_url := update_url api object_type
  let _response := post constructed_url object_body
  (constructed_url, Except.error NameError.request_not_defined)

/-- The observable behavior of one `_appcenter_request` call: the URL it hits,
how many GETs it issues, and the value of `content` when the loop is done
(`none` would model the NameError of returning a never-assigned `content`;
with a natural-number retry count `range(retries + 1)` is never empty). -/
structure AppcenterTrace where
  full_url : String
  num_requests : Nat
  returned : Option String
deriving DecidableEq

/-- QuickbooksApi._appcenter_request (api.py lines 91-104):
`for retry_i in range(retries + 1): content = self.session.get(full_url).content`
then `return content`. The `contents` argument gives the `.content` of the
i-th GET issued; each loop iteration issues exactly one GET. -/
def appcenter_request (contents : Nat → String) (url : String) (retries : Nat) :
    AppcenterTrace :=
  let full_url := APPCENTER_URL_BASE ++ url
  let iters := List.range (retries + 1)
  { full_url := full_url
    num_requests := iters.length
    returned := iters.foldl (fun _ i => some (contents i)) none }

/-- QuickbooksApi.app_menu (api.py lines 106-107). -/
def app_menu (contents : Nat → String) (retries : Nat) : AppcenterTrace :=
  appcenter_request contents "account/appmenu" retries

/-- The identity as `find_quickbooks_token` sees it after resolving a request
to its user (models.py lines 22-25): a numeric id and the result of
`user.is_authenticated()`. -/
structure DjangoUser where
  id : Nat
  is_authenticated : Bool
deriving DecidableEq

/-- MissingTokenException (models.py lines 17-18), carrying its message. -/
inductive MissingTokenException where
  | mk (msg : String)
deriving DecidableEq

/-- find_quickbooks_token (models.py lines 21-31). `db` is the list of stored
QuickbooksToken rows in database order; `filter(user=user)[0]` takes the
first row for the user, and the IndexError of an empty result is caught, so
the function returns None instead of raising for "not found"; an
unauthenticated user short-circuits to None. -/
def find_quickbooks_token (db : List QuickbooksToken) (user : DjangoUser) :
    Option QuickbooksToken :=
  if !user.is_authenticated then none
  else
    match db.filter (fun t => t.user_id == user.id) with
    | [] => none
    | t :: _ => some t

/-- get_quickbooks_token (models.py lines 34-38): delegate to
`find_quickbooks_token` and raise MissingTokenException when it found
nothing. -/
def get_quickbooks_token (db : List QuickbooksToken) (user : DjangoUser) :
    Except MissingTokenException QuickbooksToken :=
  match find_quickbooks_token db user with
  | none => Except.error (MissingTokenException.mk "No QuickBooks OAuth token exists for this user")
  | some token => Except.ok token

/-! ### Helper lemmas -/

/-- A successful dict lookup means the key occurs in the association list. -/
theorem dictGet_any {α : Type} {kvs : List (String × α)} {k : String} {v : α}
    (h : dictGet kvs k = some v) : kvs.any (fun kv => kv.1 == k) = true := by
  induction kvs with
  | nil => simp [dictGet] at h
  | cons kv rest ih =>
    rw [dictGet] at h
    by_cases hk : kv.1 = k
    · simp [List.any_cons, hk]
    · rw [if_neg hk] at h
      simp [List.any_cons, ih h]

/-- On a 400 response whose body is an object carrying a Fault object, the
classifier raises exactly what the scan of the (defaulted) Error list
produces. -/
theorem error_check_400_fault (kvs fkvs : List (String × Json)) (entries : List Json)
    (hf : dictGet kvs "Fault" = some (Json.obj fkvs))
    (he : (dictGet fkvs "Error").getD (Json.arr []) = Json.arr entries) :
    error_check ⟨400, Json.obj kvs⟩ =
      Except.error (scanErrors (Json.obj kvs) entries) := by
  have hany : kvs.any (fun kv => kv.1 == "Fault") = true := dictGet_any hf
  simp only [error_check, containsFault, subscriptFault, faultBlock, hany, hf, he,
    if_pos rfl, if_true, scanErrorsValue]

/-- An entry that is an object whose string code misses the ERRORS table is
skipped by the loop iteration. -/
theorem scanStep_skip (body : Json) (ekvs : List (String × Json)) (c : String)
    (hc : dictGet ekvs "code" = some (Json.str c)) (hn : dictGet ERRORS c = none) :
    scanStep body (Json.obj ekvs) = none := by
  simp only [scanStep, hc, hn]

/-- A run of skipped entries in front of the list does not change the scan. -/
theorem scanErrors_append_skip (body : Json) (pre l : List Json)
    (hpre : ∀ e ∈ pre, ∃ ekvs c, e = Json.obj ekvs ∧
      dictGet ekvs "code" = some (Json.str c) ∧ dictGet ERRORS c = none) :
    scanErrors body (pre ++ l) = scanErrors body l := by
  induction pre with
  | nil => rfl
  | cons e rest ih =>
    obtain ⟨ekvs, c, hev, hc, hn⟩ := hpre e (List.mem_cons_self e rest)
    subst hev
    rw [List.cons_append, scanErrors, scanStep_skip body ekvs c hc hn]
    exact ih (fun e' he' => hpre e' (List.mem_cons_of_mem _ he'))

/-- When every entry is an object carrying a string code, the scan ends in
ApiError or a mapped error — never in a Python-level error. -/
theorem scanErrors_total (body : Json) (entries : List Json)
    (hall : ∀ e ∈ entries, ∃ ekvs c, e = Json.obj ekvs ∧
      dictGet ekvs "code" = some (Json.str c)) :
    scanErrors body entries = QbRaise.apiError body ∨
      ∃ k, scanErrors body entries = QbRaise.mapped k body := by
  induction entries with
  | nil => exact Or.inl rfl
  | cons e rest ih =>
    obtain ⟨ekvs, c, hev, hc⟩ := hall e (List.mem_cons_self e rest)
    subst hev
    rw [scanErrors]
    cases hk : dictGet ERRORS c with
    | none =>
      rw [scanStep_skip body ekvs c hc hk]
      exact ih (fun e' he' => hall e' (List.mem_cons_of_mem _ he'))
    | some k =>
      simp only [scanStep, hc, hk]
      exact Or.inr ⟨k, rfl⟩

/-! ### The claims -/

/-- C1: the spec says update passes the raw response of its POST to
error_check and returns the classified result; the code instead evaluates
`error_check(request)` (api.py line 164) where `request` is an undefined
name, so every call to update raises NameError and the classifier never
sees the response. -/
theorem C1_update_raises_NameError (api : QuickbooksApi)
    (post : String → String → HttpResponse) (object_type object_body : String) :
    (update api post object_type object_body).2 =
      Except.error NameError.request_not_defined := rfl

/-- C3: every 401 response makes error_check raise AuthenticationFailure,
regardless of the body. -/
theorem C3_status_401_auth_failure (body : Json) :
    error_check ⟨401, body⟩ = Except.error QbRaise.authenticationFailure := rfl

/-- C5: any status other than 400 and 401 (404, 500, ...) makes error_check
return the parsed JSON body unchanged with no exception. -/
theorem C5_other_status_ok (status : Nat) (body : Json)
    (h400 : status ≠ 400) (h401 : status ≠ 401) :
    error_check ⟨status, body⟩ = Except.ok body := by
  simp [error_check, h400, h401]

/-- C5 witness: a 500 response is returned unchanged. -/
theorem C5_witness :
    error_check ⟨500, Json.obj [("x", Json.null)]⟩ =
      Except.ok (Json.obj [("x", Json.null)]) :=
  C5_other_status_ok 500 (Json.obj [("x", Json.null)]) (by decide) (by decide)

/-- C6 counterexample: app_menu called with retries = 3 issues 4 app-center
requests, not 3 as the claim states. -/
theorem C6_counterexample :
    (app_menu (fun _ => "html") 3).num_requests = 4 ∧ (4 : Nat) ≠ 3 :=
  ⟨rfl, by decide⟩

/-- C6 (amended): app_menu with retries = n issues exactly n + 1 requests to
the appmenu URL in sequence, discarding every response but the last; the
last response's content is returned. -/
theorem C6_amended_retries_plus_one (contents : Nat → String) (retries : Nat) :
    app_menu contents retries =
      { full_url := APPCENTER_URL_BASE ++ "account/appmenu"
        num_requests := retries + 1
        returned := some (contents retries) } := by
  simp only [app_menu, appcenter_request, AppcenterTrace.mk.injEq]
  refine ⟨trivial, List.length_range _, ?_⟩
  rw [List.range_succ, List.foldl_append]
  rfl

/-- C7: for the online data source (token.data_source 'QBO', which the spec
calls "online"), sandbox off and realm id "123", construction resolves the
production online base URL and read("Customer", "42") dispatches a GET to
exactly https://quickbooks.api.intuit.com/v3/company/123/customer/42 —
every path segment lower-cased — whose response goes to error_check. -/
theorem C7_read_online_url (get : String → HttpResponse) :
    mkApi { user_id := 1, access_token := "k", access_token_secret := "s",
            realm_id := "123", data_source := "QBO" } false =
      some { realm_id := "123", url_base := QUICKBOOKS_ONLINE_V3_URL_BASE } ∧
    read_url { realm_id := "123", url_base := QUICKBOOKS_ONLINE_V3_URL_BASE } "Customer" "42" =
      "https://quickbooks.api.intuit.com/v3/company/123/customer/42" ∧
    read { realm_id := "123", url_base := QUICKBOOKS_ONLINE_V3_URL_BASE } get "Customer" "42" =
      error_check (get "https://quickbooks.api.intuit.com/v3/company/123/customer/42") := by
  refine ⟨rfl, by decide, ?_⟩
  show error_check (get (read_url _ "Customer" "42")) = _
  rw [show read_url { realm_id := "123", url_base := QUICKBOOKS_ONLINE_V3_URL_BASE }
        "Customer" "42" =
      "https://quickbooks.api.intuit.com/v3/company/123/customer/42" by decide]

/-- C8: query percent-encodes its input exactly once, appends it as
?query={encoded q} to {base}/company/{tenant}/query, and dispatches that URL
to the session with no lower-casing; the concrete instance shows a single
visible encoding (%20, not %2520) and surviving upper-case letters. -/
theorem C8_query_single_encoding (api : QuickbooksApi)
    (get : String → HttpResponse) (q : String) :
    query api get q =
      error_check (get (api.url_base ++ "/company/" ++ api.realm_id ++
        "/query?query=" ++ quote q)) ∧
    query_url { realm_id := "123", url_base := QUICKBOOKS_ONLINE_V3_URL_BASE }
        "SELECT * FROM CompanyInfo" =
      "https://quickbooks.api.intuit.com/v3/company/123/query?query=SELECT%20%2A%20FROM%20CompanyInfo" :=
  ⟨rfl, rfl⟩

/-- C2 counterexample: a 400 response whose body lacks the Fault envelope is
returned unchanged by error_check — no ApiError (nor any exception) is
raised, contrary to the claim's "Fault envelope missing entirely" case. -/
theorem C2_counterexample :
    error_check ⟨400, Json.obj [("time", Json.str "t")]⟩ =
      Except.ok (Json.obj [("time", Json.str "t")]) ∧
    ∀ e : QbRaise, error_check ⟨400, Json.obj [("time", Json.str "t")]⟩ ≠
      Except.error e := by
  refine ⟨rfl, fun e h => ?_⟩
  rw [show error_check ⟨400, Json.obj [("time", Json.str "t")]⟩ =
    Except.ok (Json.obj [("time", Json.str "t")]) from rfl] at h
  exact Except.noConfusion h

/-- C2 (amended): a 400 response whose body carries a Fault object whose
Error entries are all objects with string codes absent from the table
(including an empty or absent Error list) makes error_check raise ApiError
with the full parsed body; when the Fault envelope is missing the body is
returned unchanged instead (see the counterexample). -/
theorem C2_amended_fault_required (kvs fkvs : List (String × Json)) (entries : List Json)
    (hf : dictGet kvs "Fault" = some (Json.obj fkvs))
    (he : (dictGet fkvs "Error").getD (Json.arr []) = Json.arr entries)
    (hall : ∀ e ∈ entries, ∃ ekvs c, e = Json.obj ekvs ∧
      dictGet ekvs "code" = some (Json.str c) ∧ dictGet ERRORS c = none) :
    error_check ⟨400, Json.obj kvs⟩ =
      Except.error (QbRaise.apiError (Json.obj kvs)) := by
  have h1 : scanErrors (Json.obj kvs) (entries ++ []) = scanErrors (Json.obj kvs) [] :=
    scanErrors_append_skip _ entries [] hall
  rw [List.append_nil] at h1
  rw [error_check_400_fault kvs fkvs entries hf he, h1, scanErrors]

/-- C2 witness: an unrecognized code 9999 yields ApiError with the whole
body. -/
theorem C2_witness :
    error_check ⟨400, Json.obj [("Fault", Json.obj [("Error",
        Json.arr [Json.obj [("code", Json.str "9999")]])])]⟩ =
      Except.error (QbRaise.apiError (Json.obj [("Fault", Json.obj [("Error",
        Json.arr [Json.obj [("code", Json.str "9999")]])])])) :=
  C2_amended_fault_required _ _ _ rfl rfl (by
    intro e he
    simp only [List.mem_singleton] at he
    subst he
    exact ⟨_, "9999", rfl, rfl, rfl⟩)

/-- C4 counterexample: with Error = [{"Message":"m"}, {"code":"6240"}] the
first matching entry maps to DuplicateNameError, but error_check raises a
Python KeyError while reading the first entry's missing 'code' — not the
mapped exception. -/
theorem C4_counterexample :
    error_check ⟨400, Json.obj [("Fault", Json.obj [("Error",
        Json.arr [Json.obj [("Message", Json.str "m")],
                  Json.obj [("code", Json.str "6240")]])])]⟩ =
      Except.error (QbRaise.pyError (PyError.keyError "code")) ∧
    QbRaise.pyError (PyError.keyError "code") ≠
      QbRaise.mapped MappedError.duplicateNameError
        (Json.obj [("Fault", Json.obj [("Error",
          Json.arr [Json.obj [("Message", Json.str "m")],
                    Json.obj [("code", Json.str "6240")]])])]) :=
  ⟨rfl, fun h => QbRaise.noConfusion h⟩

/-- C4 (amended): on a 400 response whose Fault.Error list starts with a run
of entries that are objects with unrecognized string codes followed by the
first matching entry, error_check raises exactly the exception type the
table maps that entry's code to, carrying the full parsed body. -/
theorem C4_amended_first_match (kvs fkvs : List (String × Json)) (pre rest : List Json)
    (ekvs : List (String × Json)) (c : String) (k : MappedError)
    (hf : dictGet kvs "Fault" = some (Json.obj fkvs))
    (he : (dictGet fkvs "Error").getD (Json.arr []) =
      Json.arr (pre ++ Json.obj ekvs :: rest))
    (hpre : ∀ e ∈ pre, ∃ ekvs' c', e = Json.obj ekvs' ∧
      dictGet ekvs' "code" = some (Json.str c') ∧ dictGet ERRORS c' = none)
    (hc : dictGet ekvs "code" = some (Json.str c))
    (hk : dictGet ERRORS c = some k) :
    error_check ⟨400, Json.obj kvs⟩ =
      Except.error (QbRaise.mapped k (Json.obj kvs)) := by
  rw [error_check_400_fault kvs fkvs _ hf he,
    scanErrors_append_skip _ pre _ hpre, scanErrors]
  simp only [scanStep, hc, hk]

/-- C4 witness: the spec's example body with code 6240 raises
DuplicateNameError with the whole body. -/
theorem C4_witness :
    error_check ⟨400, Json.obj [("Fault", Json.obj [("Error",
        Json.arr [Json.obj [("code", Json.str "6240"), ("Message", Json.str "m")]])])]⟩ =
      Except.error (QbRaise.mapped MappedError.duplicateNameError
        (Json.obj [("Fault", Json.obj [("Error",
          Json.arr [Json.obj [("code", Json.str "6240"),
                    ("Message", Json.str "m")]])])])) :=
  C4_amended_first_match _ _ [] [] _ "6240" MappedError.duplicateNameError rfl rfl
    (by intro e he; exact absurd he (List.not_mem_nil e)) rfl rfl

/-- C9: find_quickbooks_token returns none — raising nothing — for an
unauthenticated user or one with no stored row, while get_quickbooks_token
raises MissingTokenException exactly there and returns the credential that
find found otherwise. -/
theorem C9_find_require (db : List QuickbooksToken) (user : DjangoUser) :
    ((user.is_authenticated = false ∨
        db.filter (fun t => t.user_id == user.id) = []) →
      find_quickbooks_token db user = none ∧
      get_quickbooks_token db user = Except.error
        (MissingTokenException.mk "No QuickBooks OAuth token exists for this user")) ∧
    (∀ t, find_quickbooks_token db user = some t →
      get_quickbooks_token db user = Except.ok t) := by
  constructor
  · intro h
    have hfind : find_quickbooks_token db user = none := by
      cases h with
      | inl h1 => simp [find_quickbooks_token, h1]
      | inr h2 =>
        cases ha : user.is_authenticated with
        | false => simp [find_quickbooks_token, ha]
        | true => simp [find_quickbooks_token, ha, h2]
    exact ⟨hfind, by simp [get_quickbooks_token, hfind]⟩
  · intro t ht
    simp [get_quickbooks_token, ht]

/-- C9 witness: an authenticated user with empty store gets none from find
and MissingTokenException from require; with one matching row require
returns it. -/
theorem C9_witness :
    find_quickbooks_token [] { id := 1, is_authenticated := true } = none ∧
    get_quickbooks_token [] { id := 1, is_authenticated := true } =
      Except.error (MissingTokenException.mk
        "No QuickBooks OAuth token exists for this user") ∧
    get_quickbooks_token
        [{ user_id := 1, access_token := "k", access_token_secret := "s",
           realm_id := "123", data_source := "QBO" }]
        { id := 1, is_authenticated := true } =
      Except.ok { user_id := 1, access_token := "k", access_token_secret := "s",
                  realm_id := "123", data_source := "QBO" } := by
  refine ⟨?_, ?_, ?_⟩
  · exact ((C9_find_require [] _).1 (Or.inr rfl)).1
  · exact ((C9_find_require [] _).1 (Or.inr rfl)).2
  · exact (C9_find_require _ _).2 _ rfl

/-- C10: an Error entry without a 'code' key makes error_check raise a
Python KeyError — neither ApiError nor a mapped exception — and under the
precondition that every Error entry is an object carrying a string 'code',
the 400/Fault path is total: it raises only ApiError or a mapped error. -/
theorem C10_missing_code_keyError :
    (error_check ⟨400, Json.obj [("Fault", Json.obj [("Error",
        Json.arr [Json.obj [("Message", Json.str "m")]])])]⟩ =
      Except.error (QbRaise.pyError (PyError.keyError "code"))) ∧
    (∀ (kvs fkvs : List (String × Json)) (entries : List Json),
      dictGet kvs "Fault" = some (Json.obj fkvs) →
      (dictGet fkvs "Error").getD (Json.arr []) = Json.arr entries →
      (∀ e ∈ entries, ∃ ekvs c, e = Json.obj ekvs ∧
        dictGet ekvs "code" = some (Json.str c)) →
      error_check ⟨400, Json.obj kvs⟩ =
          Except.error (QbRaise.apiError (Json.obj kvs)) ∨
        ∃ k, error_check ⟨400, Json.obj kvs⟩ =
          Except.error (QbRaise.mapped k (Json.obj kvs))) := by
  refine ⟨rfl, fun kvs fkvs entries hf he hall => ?_⟩
  rw [error_check_400_fault kvs fkvs entries hf he]
  rcases scanErrors_total (Json.obj kvs) entries hall with h | ⟨k, h⟩
  · exact Or.inl (by rw [h])
  · exact Or.inr ⟨k, by rw [h]⟩

/-- C10 witness: with every entry carrying a code ("0", unrecognized), the
classifier lands in the ApiError-or-mapped alternative. -/
theorem C10_witness :
    error_check ⟨400, Json.obj [("Fault", Json.obj [("Error",
        Json.arr [Json.obj [("code", Json.str "0")]])])]⟩ =
        Except.error (QbRaise.apiError (Json.obj [("Fault", Json.obj [("Error",
          Json.arr [Json.obj [("code", Json.str "0")]])])])) ∨
      ∃ k, error_check ⟨400, Json.obj [("Fault", Json.obj [("Error",
        Json.arr [Json.obj [("code", Json.str "0")]])])]⟩ =
        Except.error (QbRaise.mapped k (Json.obj [("Fault", Json.obj [("Error",
          Json.arr [Json.obj [("code", Json.str "0")]])])])) :=
  C10_missing_code_keyError.2 _ _ _ rfl rfl (by
    intro e he
    simp only [List.mem_singleton] at he
    subst he
    exact ⟨_, "0", rfl, rfl⟩)

end Quickbooks
